import Mathlib

/-!
Verification of the DouyinStyleAnalyzer job-orchestration core against its
specification.  Python source files are shallowly embedded as Lean
definitions: floats become exact rationals, datetimes become rational
timestamps, database rows become structures, and the effect of each method
is modelled as a pure state transformer.  Randomness (the jitter draw) and
external collaborator outcomes (download / transcription / analyzer
success) are passed in as explicit parameters or oracles.
-/

namespace DouyinAnalyzer

/-! ## RetryManager (`utils/retry.py`)

`RetryConfig` carries the retry parameters with the source defaults
(`max_retries=10, base_delay=2.0, max_delay=60.0, backoff_factor=2.0,
jitter=True`).  `calculate_delay` embeds `RetryManager.calculate_delay`;
the random draw `random.uniform(0.1, 0.3)` is passed in as the parameter
`u`, whose possible values form `code_jitter_range`. -/

structure RetryConfig where
  max_retries : ℕ := 10
  base_delay : ℚ := 2
  max_delay : ℚ := 60
  backoff_factor : ℚ := 2
  jitter : Bool := true
deriving Repr

/-- Embeds `RetryManager.calculate_delay(attempt)`:
`delay = base_delay * backoff_factor ** attempt`, then
`delay = min(delay, max_delay)`, then when jitter is enabled
`delay += u * delay` with `u = random.uniform(0.1, 0.3)`. -/
def calculate_delay (cfg : RetryConfig) (attempt : ℕ) (u : ℚ) : ℚ :=
  let delay := cfg.base_delay * cfg.backoff_factor ^ attempt
  let delay := min delay cfg.max_delay
  if cfg.jitter then delay + u * delay else delay

/-- The deterministic pre-jitter delay `min(base_delay * factor^k, max_delay)`. -/
def pre_jitter_delay (cfg : RetryConfig) (attempt : ℕ) : ℚ :=
  min (cfg.base_delay * cfg.backoff_factor ^ attempt) cfg.max_delay

/-- Values the code's jitter draw `random.uniform(0.1, 0.3)` can take. -/
def code_jitter_range : Set ℚ := {u | 1/10 ≤ u ∧ u ≤ 3/10}

/-- Modelled from the spec's words for comparison: a jitter draw
"uniform(0, jitterRatio)" taken from the half-open interval `[0, r)`. -/
def spec_jitter_range (r : ℚ) : Set ℚ := {u | 0 ≤ u ∧ u < r}

/-! Sanity checks on concrete delays. -/

example : calculate_delay {} 0 (1/10) = 11/5 := by norm_num [calculate_delay]

example : calculate_delay {} 10 (1/10) = 66 := by norm_num [calculate_delay]

end DouyinAnalyzer

namespace DouyinAnalyzer

/-! ## AnalysisTask (`models/task.py`)

The ORM row is embedded as a structure holding the fields the orchestration
core reads and writes.  Timestamps are rational numbers (`china_now()` is
passed in as an explicit `now` parameter); `updated_at` is omitted as pure
observability.  `TaskStep.starting` embeds the source's `INITIALIZING`
member. -/

inductive TaskStatus where
  | pending | running | completed | failed | cancelled
deriving DecidableEq, Repr

inductive TaskStep where
  | starting | scraping | downloading | transcribing | finalizing
deriving DecidableEq, Repr

structure AnalysisTask where
  status : TaskStatus := .pending
  current_step : TaskStep := .starting
  progress : ℕ := 0
  total_videos : ℕ := 0
  videos_processed : ℕ := 0
  videos_success : ℕ := 0
  videos_failed : ℕ := 0
  started_at : Option ℚ := none
  completed_at : Option ℚ := none
  result_file : Option String := none
  error_message : Option String := none
  estimated_remaining : Option ℤ := none
  analysis_report : Option String := none
  analysis_status : String := "pending"
deriving DecidableEq, Repr

/-- Truncation toward zero of a rational, embedding Python's `int(...)`
applied to a (mathematically exact) float expression. -/
def ratTrunc (q : ℚ) : ℤ := Int.tdiv q.num q.den

/-- Embeds `AnalysisTask.update_status`.  `step`/`progress`/`error_message`
are optional keyword arguments; `if error_message:` is Python truthiness,
so an empty string is not written.  `started_at` is set only on the first
transition into `RUNNING`; `completed_at` is set on a terminal status. -/
def update_status (t : AnalysisTask) (status : TaskStatus)
    (step : Option TaskStep := none) (progress : Option ℕ := none)
    (error_message : Option String := none) (now : ℚ := 0) : AnalysisTask :=
  let t := { t with status := status }
  let t := match step with
    | some s => { t with current_step := s }
    | none => t
  let t := match progress with
    | some p => { t with progress := p }
    | none => t
  let t := match error_message with
    | some e => if e = "" then t else { t with error_message := some e }
    | none => t
  if status = TaskStatus.running ∧ t.started_at = (none : Option ℚ) then
    { t with started_at := some now }
  else if status = .completed ∨ status = .failed ∨ status = .cancelled then
    { t with completed_at := some now }
  else t

/-- Embeds `AnalysisTask.update_progress`: stores the three counters; the
percentage is recomputed only when `total_videos > 0`
(`int(processed / total * 100)`, exact over ℚ, equals truncating Nat
division here); the ETA is recomputed only when `started_at` is set and
`processed > 0`. -/
def update_progress (t : AnalysisTask) (p s f : ℕ) (now : ℚ) : AnalysisTask :=
  let t := { t with videos_processed := p, videos_success := s, videos_failed := f }
  let t := if 0 < t.total_videos then
      { t with progress := p * 100 / t.total_videos }
    else t
  match t.started_at with
  | some st =>
      if 0 < p then
        let elapsed : ℚ := now - st
        let avg : ℚ := elapsed / (p : ℚ)
        { t with estimated_remaining := some (ratTrunc (avg * ((t.total_videos : ℚ) - (p : ℚ)))) }
      else t
  | none => t

/-- Embeds `AnalysisTask.set_result_file`. -/
def set_result_file (t : AnalysisTask) (filename : String) : AnalysisTask :=
  { t with result_file := some filename }

/-- Embeds `AnalysisTask.set_analysis_report(report_data, status)`: stores
the serialized report and the analysis status marker. -/
def set_analysis_report (t : AnalysisTask) (report : String) (status : String) :
    AnalysisTask :=
  { t with analysis_report := some report, analysis_status := status }

/-! ## Pipeline item loop (`TaskManager._transcribe_videos`)

Each loop iteration takes exactly one of the control paths below; each path
adds 1 to the processed counter and 1 to exactly one of the success /
failed counters, then calls `task.update_progress`.  The emitted
`(processed, success, failed)` triples are collected in a log. -/

/-- Per-item control paths of `_transcribe_videos`:
`noRecord` (video record missing), `skipRetry` (already failed with retries
exhausted), `okItem dbOk` (transcriber success; `dbOk` tells whether the
record update committed), `failItem dbOk` (transcriber returned failure),
`exnItem` (exception inside the item body). -/
inductive ItemOutcome where
  | noRecord
  | skipRetry
  | okItem (dbOk : Bool)
  | failItem (dbOk : Bool)
  | exnItem
deriving DecidableEq, Repr

structure Progress where
  processed : ℕ
  success : ℕ
  failed : ℕ
deriving DecidableEq, Repr

structure PipeState where
  processed : ℕ
  success : ℕ
  failed : ℕ
  log : List Progress
deriving DecidableEq, Repr

/-- Increments to `(success_count, failed_count)` on each path; the
database-commit outcome does not change the counters (the `except
db_error` handler still increments exactly one of them). -/
def outcome_delta : ItemOutcome → ℕ × ℕ
  | .noRecord => (0, 1)
  | .skipRetry => (0, 1)
  | .okItem _ => (1, 0)
  | .failItem _ => (0, 1)
  | .exnItem => (0, 1)

/-- One iteration of the `for i, video_data in enumerate(videos)` loop:
bump the counters and emit `task.update_progress(processed, success,
failed)`. -/
def transcribe_step (p : PipeState) (o : ItemOutcome) : PipeState :=
  let d := outcome_delta o
  let pr : Progress := ⟨p.processed + 1, p.success + d.1, p.failed + d.2⟩
  ⟨pr.processed, pr.success, pr.failed, p.log ++ [pr]⟩

/-- Counters at entry to `_transcribe_videos`: `_scrape_videos` has just
called `task.update_progress(0, 0, 0)`, which is the first logged update. -/
def init_pipe : PipeState := ⟨0, 0, 0, [⟨0, 0, 0⟩]⟩

/-- The whole item loop over a list of per-item outcomes. -/
def transcribe_run (outcomes : List ItemOutcome) : PipeState :=
  outcomes.foldl transcribe_step init_pipe

/-! ## VideoData retry history (`models/video.py`) -/

/-- One entry of the bounded retry history written by
`VideoData.add_retry_error`: `retry_count` / `error_message` / `timestamp`. -/
structure RetryErr where
  retry_count : ℕ
  error_message : String
  timestamp : ℚ
deriving DecidableEq, Repr

/-- Embeds `VideoData.add_retry_error`: append the new record, then keep
only the most recent 20 entries (`error_history[-20:]`) when the list
exceeds 20. -/
def add_retry_error (hist : List RetryErr) (e : RetryErr) : List RetryErr :=
  let h := hist ++ [e]
  if 20 < h.length then h.drop (h.length - 20) else h

/-! ## Finalization (`TaskManager._perform_ai_analysis`, `_save_results`,
tail of `_execute_task_with_app`)

The external DeepSeek analyzer is an oracle: `some report` when
`analyze_blogger_with_deepseek` returns, `none` when it raises.  On a
raise, `_perform_ai_analysis` catches the exception, stores an error
report with `set_analysis_report(error_result, 'failed')` and returns the
error dict — it never re-raises.  `fileOk` models whether the JSON dump in
`_save_results` succeeds. -/

/-- The `error_result` dict built in the `except` branch of
`_perform_ai_analysis` (serialized form; its own `analysis_status` key is
`"failed"`). -/
def analysisErrorReport : String := "AI analysis failed"

/-- Embeds `_perform_ai_analysis`: on analyzer success store the report
with status `'completed'`; on an analyzer exception store the error report
with status `'failed'` and return normally. -/
def perform_ai_analysis (t : AnalysisTask) (analyzer : Option String) : AnalysisTask :=
  match analyzer with
  | some report => set_analysis_report t report "completed"
  | none => set_analysis_report t analysisErrorReport "failed"

/-- Embeds `_save_results`: set step `FINALIZING`, run the AI analysis,
then write the result file, returning the filename (or `none` when the
file write raises, which `_save_results` turns into `return None`). -/
def save_results (t : AnalysisTask) (analyzer : Option String)
    (fileOk : Bool) (filename : String) (now : ℚ) :
    AnalysisTask × Option String :=
  let t1 := update_status t .running (some .finalizing) none none now
  let t2 := perform_ai_analysis t1 analyzer
  (t2, if fileOk then some filename else none)

/-- Embeds step 3 of `_execute_task_with_app`: on a filename from
`_save_results`, `set_result_file` then `update_status(COMPLETED)`; a
`None` result raises "结果保存失败" into the retry loop instead. -/
def execute_save_phase (t : AnalysisTask) (analyzer : Option String)
    (fileOk : Bool) (filename : String) (now : ℚ) : AnalysisTask :=
  match save_results t analyzer fileOk filename now with
  | (t2, some fn) => update_status (set_result_file t2 fn) .completed none none none now
  | (t2, none) => t2

/-! ## VideoTranscriber.process_video (`services/transcriber.py`)

`process_video` hands ONE closure `_process_video_internal` — which first
calls `download_video` and then `transcribe_video` — to
`retry_manager.retry`.  `download_video` returns `None` on failure, which
the closure turns into a raised exception (so the whole closure is
retried); `transcribe_video` never raises: it returns a result dict whose
`success` flag may be `False`, and the closure returns that dict, ending
the retry loop.  The two external collaborators are oracles indexed by
invocation count. -/

structure ProcOracle where
  fetch : ℕ → Bool
  transcribe : ℕ → Bool

/-- Observable outcome of one `process_video` call: the returned `success`
flag and how many times each external collaborator was invoked. -/
structure ProcResult where
  success : Bool
  fetch_calls : ℕ
  transcribe_calls : ℕ
deriving DecidableEq, Repr

/-- The `for attempt in range(max_retries + 1)` loop of
`RetryManager.retry` applied to `_process_video_internal`; `fc` counts the
`download_video` invocations made so far, the second argument is the
number of attempts left.  When the attempts run out the last exception is
re-raised and caught by `process_video`, which returns a failure dict. -/
def process_attempts (o : ProcOracle) (fc : ℕ) : ℕ → ProcResult
  | 0 => ⟨false, fc, 0⟩
  | r + 1 =>
      if o.fetch fc then ⟨o.transcribe 0, fc + 1, 1⟩
      else process_attempts o (fc + 1) r

/-- Embeds `VideoTranscriber.process_video` with the default
`MAX_RETRY_COUNT = 10`, i.e. 11 attempts of the single coarse-grained
unit. -/
def process_video (o : ProcOracle) : ProcResult :=
  process_attempts o 0 (10 + 1)

/-- A bounded retry of a single fallible call: `(succeeded, calls made)`,
starting at invocation index `i` with the given number of attempts left. -/
def retry_from (f : ℕ → Bool) (i : ℕ) : ℕ → Bool × ℕ
  | 0 => (false, 0)
  | r + 1 =>
      if f i then (true, 1)
      else
        let res := retry_from f (i + 1) r
        (res.1, res.2 + 1)

/-- Modelled from the spec's words, for comparison with `process_video`:
"the external fetch call and the external transcribe call are each wrapped
by the retry executor individually" — fetch is retried to success within
the attempt budget, and only then transcribe is retried within its own
budget. -/
def process_video_spec (o : ProcOracle) : ProcResult :=
  let fr := retry_from o.fetch 0 (10 + 1)
  if fr.1 then
    let tr := retry_from o.transcribe 0 (10 + 1)
    ⟨tr.1, fr.2, tr.2⟩
  else ⟨false, fr.2, 0⟩

/-! ## TaskManager scheduler (`services/task_manager.py`)

The scheduler state (`running_tasks` dict keys, `task_queue` list,
`max_concurrent_tasks = 5`) together with the worker threads is embedded
as `Sys`.  A queue entry keeps the `task_id` and the workload the task
will process once started (standing for the stored `app`/`cookies`
closure; the `queued_at` timestamp only feeds a log line and is dropped).
All operations below run under `self.task_lock` in the source, so they
are atomic steps of the model.

A `Thread` embeds one `_execute_task_with_app` worker: `retry_count` and
its position in the `while retry_count <= max_retries` loop (`max_retries
= 3`).  `Phase.running` means an attempt (the pipeline) is executing;
`Phase.cleanup exits` means the attempt ended — with `exits = true` when
the loop will terminate after the `finally` block (success or final
failure), `false` when the loop will retry — and the `finally` block has
not run yet; `Phase.finished` means the thread returned.  Note the
`try/except/finally` sits INSIDE the `while` loop, so the `finally`
block runs after EVERY attempt. -/

structure QEntry where
  task_id : String
  items : List ItemOutcome
deriving DecidableEq, Repr

structure Sched where
  running_tasks : List String := []
  task_queue : List QEntry := []
  max_concurrent : ℕ := 5
deriving DecidableEq, Repr

inductive Phase where
  | running
  | cleanup (exits : Bool)
  | finished
deriving DecidableEq, Repr

structure Thread where
  task_id : String
  retry_count : ℕ
  phase : Phase
  remaining : List ItemOutcome
  pipe : PipeState
deriving DecidableEq, Repr

structure Sys where
  sched : Sched := {}
  threads : List Thread := []
deriving DecidableEq, Repr

/-- Embeds `TaskManager._start_task_immediately`: record the id in
`running_tasks` and spawn the worker thread; returns `True`. -/
def start_task_immediately (sys : Sys) (id : String) (items : List ItemOutcome) :
    Bool × Sys :=
  (true,
    ⟨{ sys.sched with running_tasks := sys.sched.running_tasks ++ [id] },
      sys.threads ++ [⟨id, 0, Phase.running, items, init_pipe⟩]⟩)

/-- Embeds `TaskManager.start_analysis_task`: reject ids present in
`running_tasks`; at capacity, append to the FIFO wait queue and accept;
below capacity, start immediately. -/
def start_analysis_task (sys : Sys) (id : String) (items : List ItemOutcome) :
    Bool × Sys :=
  if id ∈ sys.sched.running_tasks then (false, sys)
  else if sys.sched.max_concurrent ≤ sys.sched.running_tasks.length then
    (true, { sys with sched :=
      { sys.sched with task_queue := sys.sched.task_queue ++ [⟨id, items⟩] } })
  else start_task_immediately sys id items

/-- Embeds `TaskManager.cancel_task`: delete the id from `running_tasks`
when present and return `True`; otherwise return `False`.  The wait queue
and the worker threads are not consulted. -/
def cancel_task (sys : Sys) (id : String) : Bool × Sys :=
  if id ∈ sys.sched.running_tasks then
    (true, { sys with sched :=
      { sys.sched with running_tasks := sys.sched.running_tasks.erase id } })
  else (false, sys)

/-- Embeds `TaskManager._start_next_queued_task`: when the queue is
non-empty and a slot is free, pop the head and start it immediately. -/
def start_next_queued_task (sys : Sys) : Sys :=
  match sys.sched.task_queue with
  | [] => sys
  | e :: rest =>
      if sys.sched.running_tasks.length < sys.sched.max_concurrent then
        (start_task_immediately
          { sys with sched := { sys.sched with task_queue := rest } }
          e.task_id e.items).2
      else sys

/-- Apply `f` to the thread with the given task id. -/
def update_thread (ts : List Thread) (id : String) (f : Thread → Thread) :
    List Thread :=
  ts.map fun t => if t.task_id = id then f t else t

/-- The running thread's current attempt ends: with `ok = true` the try
body completed (`break` pending); with `ok = false` the `except` branch
runs (`retry_count += 1`) and the loop will retry iff
`retry_count <= max_retries = 3`.  Either way the thread enters its
`finally` block. -/
def finish_attempt (sys : Sys) (id : String) (ok : Bool) : Sys :=
  { sys with threads := update_thread sys.threads id fun t =>
      if t.phase = Phase.running then
        if ok then { t with phase := Phase.cleanup true }
        else if t.retry_count + 1 ≤ 3 then
          { t with retry_count := t.retry_count + 1, phase := Phase.cleanup false }
        else
          { t with retry_count := t.retry_count + 1, phase := Phase.cleanup true }
      else t }

/-- The `finally` block of `_execute_task_with_app` (one atomic critical
section): delete the id from `running_tasks` if present, then
`_start_next_queued_task()`.  The thread then either returns
(`exits = true`) or loops into the next attempt (`exits = false`). -/
def thread_cleanup (sys : Sys) (id : String) : Sys :=
  match sys.threads.find? (fun t => t.task_id == id) with
  | some t =>
      match t.phase with
      | Phase.cleanup exits =>
          start_next_queued_task
            { sched := { sys.sched with
                running_tasks := sys.sched.running_tasks.erase id },
              threads := update_thread sys.threads id fun t =>
                { t with phase := if exits then Phase.finished else Phase.running } }
      | _ => sys
  | none => sys

/-- A running thread processes the next item of its `_transcribe_videos`
loop.  Nothing here reads the scheduler state: the loop has no
cancellation check. -/
def process_item (sys : Sys) (id : String) : Sys :=
  { sys with threads := update_thread sys.threads id fun t =>
      match t.phase, t.remaining with
      | Phase.running, o :: rest =>
          { t with remaining := rest, pipe := transcribe_step t.pipe o }
      | _, _ => t }

/-- Number of worker threads whose pipeline is still executing (not yet
returned). -/
def executing_count (sys : Sys) : ℕ :=
  (sys.threads.filter (fun t => decide (t.phase ≠ Phase.finished))).length

/-! Concrete traces used by the counterexamples. -/

/-- Five jobs admitted (filling the capacity of 5), then job "b" queued. -/
def sysFull : Sys :=
  (start_analysis_task
    (start_analysis_task
      (start_analysis_task
        (start_analysis_task
          (start_analysis_task
            (start_analysis_task {} "a1" []).2 "a2" []).2 "a3" []).2
        "a4" []).2 "a5" []).2 "b" []).2

/-- Next, the first attempt of job "a1" fails (`retry_count` becomes 1, the
loop will retry) and its per-attempt `finally` block runs. -/
def sysC1 : Sys := thread_cleanup (finish_attempt sysFull "a1" false) "a1"

/-- Five jobs admitted, then "j" queued. -/
def sysFullJ : Sys :=
  (start_analysis_task
    (start_analysis_task
      (start_analysis_task
        (start_analysis_task
          (start_analysis_task
            (start_analysis_task {} "a1" []).2 "a2" []).2 "a3" []).2
        "a4" []).2 "a5" []).2 "j" []).2

/-- Then `cancel_task "j"` is called while "j" is only queued. -/
def c2_cancel : Bool × Sys := cancel_task sysFullJ "j"

/-- Afterwards "a1" completes successfully and its `finally`
block promotes the head of the queue. -/
def sysC2 : Sys := thread_cleanup (finish_attempt c2_cancel.2 "a1" true) "a1"

/-- Job "j" admitted with two items, first item processed. -/
def sysC3a : Sys :=
  process_item (start_analysis_task {} "j" [ItemOutcome.okItem true, ItemOutcome.okItem true]).2 "j"

/-- Then `cancel_task "j"` is called while it is running. -/
def c3_cancel : Bool × Sys := cancel_task sysC3a "j"

/-- Finally the worker thread simply continues with the second item. -/
def sysC3 : Sys := process_item c3_cancel.2 "j"

/-- Submitting "j" a second time while it is already waiting in the
queue. -/
def c4_resubmit : Bool × Sys := start_analysis_task sysFullJ "j" []

/-- Collaborator oracle for the C6 counterexample: every download
succeeds; the first transcription attempt fails and any later one would
succeed. -/
def c6_oracle : ProcOracle := ⟨fun _ => true, fun k => decide (0 < k)⟩

/-- C5 counterexample: the code's jitter multiplies by `(1 + u)` with
`u` drawn from `uniform(0.1, 0.3)`, so with the default configuration the
attempt-0 delay `2 * (1 + 3/10) = 13/5` is reachable, yet no draw from the
claim's `[0, jitterRatio)` produces it when `jitterRatio = 3/10`; and for
no `jitterRatio ∈ [0, 1)` at all does the claim's draw range coincide with
the code's draw range (the code never draws below `0.1`). -/
theorem C5_counterexample :
    calculate_delay {} 0 (3/10) = 13/5 ∧
    (3:ℚ)/10 ∈ code_jitter_range ∧
    (∀ u : ℚ, 0 ≤ u → u < 3/10 → pre_jitter_delay {} 0 * (1 + u) ≠ 13/5) ∧
    ¬ ∃ r : ℚ, 0 ≤ r ∧ r < 1 ∧ code_jitter_range = spec_jitter_range r := by
  refine ⟨by norm_num [calculate_delay], by norm_num [code_jitter_range], ?_, ?_⟩
  · intro u h0 hlt
    have hpre : pre_jitter_delay {} 0 = 2 := by norm_num [pre_jitter_delay]
    rw [hpre]
    intro h
    have : u = 3/10 := by linarith
    exact absurd this (by intro he; rw [he] at hlt; exact lt_irrefl _ hlt)
  · rintro ⟨r, hr0, _, heq⟩
    by_cases hrpos : 0 < r
    · have h0spec : (0:ℚ) ∈ spec_jitter_range r := ⟨le_refl 0, hrpos⟩
      rw [← heq] at h0spec
      have := h0spec.1
      norm_num at this
    · have hr : r = 0 := le_antisymm (not_lt.mp hrpos) hr0
      have hmem : (1:ℚ)/5 ∈ code_jitter_range := by norm_num [code_jitter_range]
      rw [heq, hr] at hmem
      have := hmem.2
      norm_num at this

/-- C5 (amended): with jitter enabled the delay for attempt `k` equals
`min(base_delay * backoff_factor^k, max_delay) * (1 + u)` with the draw
`u ∈ [0.1, 0.3]` (not `[0, jitterRatio)`); the pre-jitter delay sequence is
non-decreasing in `k` (for `backoff_factor ≥ 1`, `base_delay ≥ 0`), and no
delay ever exceeds `max_delay * (1 + 0.3)`. -/
theorem C5_delay_formula_and_bounds (cfg : RetryConfig) (k : ℕ) (u : ℚ)
    (hj : cfg.jitter = true)
    (hu1 : 1/10 ≤ u) (hu2 : u ≤ 3/10)
    (hb : 0 ≤ cfg.base_delay) (hf : 1 ≤ cfg.backoff_factor)
    (hm : 0 ≤ cfg.max_delay) :
    calculate_delay cfg k u = pre_jitter_delay cfg k * (1 + u) ∧
    pre_jitter_delay cfg k ≤ pre_jitter_delay cfg (k + 1) ∧
    calculate_delay cfg k u ≤ cfg.max_delay * (13/10) := by
  have hf0 : (0:ℚ) ≤ cfg.backoff_factor := le_trans zero_le_one hf
  have hpow : cfg.base_delay * cfg.backoff_factor ^ k ≤
      cfg.base_delay * cfg.backoff_factor ^ (k + 1) := by
    apply mul_le_mul_of_nonneg_left _ hb
    exact pow_le_pow_right₀ hf (Nat.le_succ k)
  have hpre_nonneg : 0 ≤ pre_jitter_delay cfg k :=
    le_min (mul_nonneg hb (pow_nonneg hf0 k)) hm
  have hpre_le : pre_jitter_delay cfg k ≤ cfg.max_delay := min_le_right _ _
  have hformula : calculate_delay cfg k u = pre_jitter_delay cfg k * (1 + u) := by
    simp only [calculate_delay, pre_jitter_delay, hj, if_true]
    ring
  refine ⟨hformula, ?_, ?_⟩
  · exact min_le_min hpow (le_refl _)
  · rw [hformula]
    calc pre_jitter_delay cfg k * (1 + u)
        ≤ cfg.max_delay * (1 + u) := by
          apply mul_le_mul_of_nonneg_right hpre_le
          linarith
      _ ≤ cfg.max_delay * (13/10) := by
          apply mul_le_mul_of_nonneg_left _ hm
          linarith


/-- Witness for `C5_delay_formula_and_bounds` at the default configuration,
attempt 0, draw `u = 1/5`. -/
theorem C5_delay_formula_and_bounds_witness :
    (RetryConfig.jitter {} = true ∧ (1:ℚ)/10 ≤ 1/5 ∧ (1:ℚ)/5 ≤ 3/10 ∧
      (0:ℚ) ≤ RetryConfig.base_delay {} ∧ (1:ℚ) ≤ RetryConfig.backoff_factor {} ∧
      (0:ℚ) ≤ RetryConfig.max_delay {}) ∧
    (calculate_delay {} 0 (1/5) = pre_jitter_delay {} 0 * (1 + 1/5) ∧
      pre_jitter_delay {} 0 ≤ pre_jitter_delay {} 1 ∧
      calculate_delay {} 0 (1/5) ≤ RetryConfig.max_delay {} * (13/10)) :=
  ⟨⟨rfl, by norm_num, by norm_num, by norm_num [RetryConfig.base_delay],
      by norm_num [RetryConfig.backoff_factor], by norm_num [RetryConfig.max_delay]⟩,
    C5_delay_formula_and_bounds {} 0 (1/5) rfl (by norm_num) (by norm_num)
      (by norm_num [RetryConfig.base_delay]) (by norm_num [RetryConfig.backoff_factor])
      (by norm_num [RetryConfig.max_delay])⟩

/-- C1: the `finally` block of `_execute_task_with_app` sits inside the
retry `while` loop, so it runs after EVERY attempt.  With the capacity of
5 filled by jobs a1..a5 and job "b" queued, a single failed first attempt
of "a1" already releases a1's slot and admits "b" while a1's thread is
still retrying: afterwards 6 pipelines execute concurrently under a
capacity of 5, "a1" is untracked although its thread is still in
`Phase.running` with `retry_count = 1`, and "b" occupies the freed slot —
the slot was released before a1's execution terminated. -/
theorem C1_slot_released_while_retrying :
    executing_count sysC1 = 6 ∧
    sysC1.sched.max_concurrent = 5 ∧
    "a1" ∉ sysC1.sched.running_tasks ∧
    sysC1.threads.find? (fun t => t.task_id == "a1") =
      some ⟨"a1", 1, Phase.running, [], init_pipe⟩ ∧
    "b" ∈ sysC1.sched.running_tasks := by decide

/-- C2 counterexample: with "j" waiting in the queue (capacity filled by
a1..a5), `cancel_task "j"` returns `False` and leaves the state — queue
included — unchanged, and once "a1" completes, "j" is popped from the
queue and transitioned to Running with a spawned worker; the claim said
the call removes the queue entry, returns true, and the job is never
admitted. -/
theorem C2_counterexample :
    c2_cancel.1 = false ∧
    c2_cancel.2 = sysFullJ ∧
    QEntry.mk "j" [] ∈ c2_cancel.2.sched.task_queue ∧
    "j" ∈ sysC2.sched.running_tasks ∧
    (sysC2.threads.find? (fun t => t.task_id == "j")).isSome = true := by decide

/-- C2 (amended): for a job that is not running — in particular one that
is only waiting in the queue — `cancel_task` returns `False` and changes
nothing: the queue entry stays and the job is admitted normally when a
slot frees. -/
theorem C2_cancel_of_queued_is_noop (sys : Sys) (id : String)
    (h : id ∉ sys.sched.running_tasks) :
    cancel_task sys id = (false, sys) := by
  simp [cancel_task, h]

/-- Witness for `C2_cancel_of_queued_is_noop` on the concrete queued-job
state. -/
theorem C2_cancel_of_queued_is_noop_witness :
    "j" ∉ sysFullJ.sched.running_tasks ∧ cancel_task sysFullJ "j" = (false, sysFullJ) :=
  ⟨by decide, C2_cancel_of_queued_is_noop sysFullJ "j" (by decide)⟩

/-- C3 counterexample: job "j" runs with two items and has processed the
first; `cancel_task "j"` returns `True` and removes the bookkeeping, yet
the pipeline then starts and completes the SECOND item — its processed
count reaches 2 and a third progress update is persisted — because no
cancellation signal exists for the worker to observe; the claim said the
pipeline starts no further item after the cancel. -/
theorem C3_counterexample :
    c3_cancel.1 = true ∧
    "j" ∉ c3_cancel.2.sched.running_tasks ∧
    sysC3.threads.find? (fun t => t.task_id == "j") =
      some ⟨"j", 0, Phase.running, [],
        ⟨2, 2, 0, [⟨0, 0, 0⟩, ⟨1, 1, 0⟩, ⟨2, 2, 0⟩]⟩⟩ := by decide

/-- C3 (amended): `cancel_task` on a running job returns `True` and
removes the scheduler's bookkeeping entry, and does nothing else: no
worker thread and no queue entry is touched, so no cancellation is ever
signalled to the pipeline, which keeps processing its remaining items and
stages; results persisted before the cancel are unchanged by it. -/
theorem C3_cancel_only_removes_bookkeeping (sys : Sys) (id : String) :
    ((cancel_task sys id).2).threads = sys.threads ∧
    ((cancel_task sys id).2).sched.task_queue = sys.sched.task_queue ∧
    ((cancel_task sys id).1 = true ↔ id ∈ sys.sched.running_tasks) ∧
    ((cancel_task sys id).2).sched.running_tasks = sys.sched.running_tasks.erase id := by
  unfold cancel_task
  by_cases h : id ∈ sys.sched.running_tasks
  · simp [h]
  · simp [h, List.erase_of_not_mem h]

/-- C4 counterexample: "j" is already tracked in the wait queue (and not
running); submitting "j" again is accepted (`True`) and appends a second
queue entry, so the queue now holds "j" twice; the claim said a tracked
jobId is rejected and no duplicate entry is appended. -/
theorem C4_counterexample :
    QEntry.mk "j" [] ∈ sysFullJ.sched.task_queue ∧
    "j" ∉ sysFullJ.sched.running_tasks ∧
    c4_resubmit.1 = true ∧
    c4_resubmit.2.sched.task_queue = [⟨"j", []⟩, ⟨"j", []⟩] := by decide

/-- C4 (amended): `start_analysis_task` rejects a jobId only when it is
currently in `running_tasks` — the wait queue is not consulted, so an id
already queued is accepted again (appending a duplicate entry when at
capacity).  For an id that is not running: at capacity it is appended to
the FIFO wait queue and accepted without spawning a worker; below
capacity it is admitted immediately with a spawned worker. -/
theorem C4_submit_checks_only_running (sys : Sys) (id : String)
    (items : List ItemOutcome) :
    (id ∈ sys.sched.running_tasks → start_analysis_task sys id items = (false, sys)) ∧
    (id ∉ sys.sched.running_tasks → (start_analysis_task sys id items).1 = true) ∧
    (id ∉ sys.sched.running_tasks →
      sys.sched.max_concurrent ≤ sys.sched.running_tasks.length →
      (start_analysis_task sys id items).2.sched.task_queue =
          sys.sched.task_queue ++ [⟨id, items⟩] ∧
        (start_analysis_task sys id items).2.threads = sys.threads) ∧
    (id ∉ sys.sched.running_tasks →
      sys.sched.running_tasks.length < sys.sched.max_concurrent →
      (start_analysis_task sys id items).2.sched.running_tasks =
          sys.sched.running_tasks ++ [id] ∧
        (start_analysis_task sys id items).2.threads =
          sys.threads ++ [⟨id, 0, Phase.running, items, init_pipe⟩]) := by
  refine ⟨fun h => by simp [start_analysis_task, h], ?_, ?_, ?_⟩
  · intro h
    by_cases hc : sys.sched.max_concurrent ≤ sys.sched.running_tasks.length
    · simp [start_analysis_task, h, hc]
    · simp [start_analysis_task, h, hc, start_task_immediately]
  · intro h hc
    simp [start_analysis_task, h, hc]
  · intro h hc
    have hc' : ¬ sys.sched.max_concurrent ≤ sys.sched.running_tasks.length :=
      not_le.mpr hc
    simp [start_analysis_task, h, hc', start_task_immediately]

/-- Witness for `C4_submit_checks_only_running`: submitting the fresh id
"k" while at capacity queues it. -/
theorem C4_submit_checks_only_running_witness :
    ("k" ∉ sysFullJ.sched.running_tasks ∧
      sysFullJ.sched.max_concurrent ≤ sysFullJ.sched.running_tasks.length) ∧
    ((start_analysis_task sysFullJ "k" []).2.sched.task_queue =
        sysFullJ.sched.task_queue ++ [⟨"k", []⟩] ∧
      (start_analysis_task sysFullJ "k" []).2.threads = sysFullJ.threads) :=
  ⟨⟨by decide, by decide⟩,
    (C4_submit_checks_only_running sysFullJ "k" []).2.2.1 (by decide) (by decide)⟩

/-- In `process_attempts` the transcriber runs at most once: any
transcribe invocation ends the retry loop. -/
theorem process_attempts_transcribe_le (o : ProcOracle) (fc r : ℕ) :
    (process_attempts o fc r).transcribe_calls ≤ 1 := by
  induction r generalizing fc with
  | zero => simp [process_attempts]
  | succ r ih =>
      simp only [process_attempts]
      by_cases h : o.fetch fc
      · simp [h]
      · simpa [h] using ih (fc + 1)

/-- The download invocation count of `process_attempts` does not depend on
the transcription oracle. -/
theorem process_attempts_fetch_indep (f t t' : ℕ → Bool) (fc r : ℕ) :
    (process_attempts ⟨f, t⟩ fc r).fetch_calls =
      (process_attempts ⟨f, t'⟩ fc r).fetch_calls := by
  induction r generalizing fc with
  | zero => rfl
  | succ r ih =>
      simp only [process_attempts]
      by_cases h : f fc
      · simp [h]
      · simpa [h] using ih (fc + 1)

/-- Folding the item loop preserves `processed = success + failed` for the
running counters and every logged triple. -/
theorem transcribe_foldl_invariant (outcomes : List ItemOutcome) :
    ∀ p : PipeState,
      (∀ pr ∈ p.log, pr.processed = pr.success + pr.failed) →
      p.processed = p.success + p.failed →
      ∀ pr ∈ (outcomes.foldl transcribe_step p).log,
        pr.processed = pr.success + pr.failed := by
  induction outcomes with
  | nil => intro p hlog _ pr hpr; exact hlog pr hpr
  | cons o os ih =>
      intro p hlog hpf pr hpr
      rw [List.foldl_cons] at hpr
      refine ih (transcribe_step p o) ?_ ?_ pr hpr
      · intro q hq
        simp only [transcribe_step, List.mem_append, List.mem_singleton] at hq
        rcases hq with hq | hq
        · exact hlog q hq
        · subst hq
          cases o <;> simp [outcome_delta] <;> omega
      · cases o <;> simp [transcribe_step, outcome_delta] <;> omega

/-- C6 counterexample: with downloads always succeeding and the first
transcription failing (a later one would succeed), the code's
`process_video` — one retry unit around download-then-transcribe —
returns failure after a single transcribe call, whereas the spec's
individually-wrapped version retries the transcribe alone and returns
success: the two disagree, so fetch and transcribe are not each wrapped
individually. -/
theorem C6_counterexample :
    process_video c6_oracle = ⟨false, 1, 1⟩ ∧
    process_video_spec c6_oracle = ⟨true, 1, 2⟩ ∧
    process_video c6_oracle ≠ process_video_spec c6_oracle := by decide

/-- C6 (amended): `process_video` wraps download and transcription in a
single coarse-grained retry unit; because a transcription failure is
returned as a result dict rather than raised, the unit is never retried
after the transcribe step runs, so transcription is invoked at most once
and the number of download invocations is entirely independent of the
transcription outcomes — in particular a transcription failure alone
never causes the fetch to be invoked again within the same call. -/
theorem C6_single_coarse_retry_unit (f t t' : ℕ → Bool) :
    (process_video ⟨f, t⟩).transcribe_calls ≤ 1 ∧
    (process_video ⟨f, t⟩).fetch_calls = (process_video ⟨f, t'⟩).fetch_calls :=
  ⟨process_attempts_transcribe_le ⟨f, t⟩ 0 (10 + 1),
    process_attempts_fetch_indep f t t' 0 (10 + 1)⟩

/-- C7: every `(processed, success, failed)` triple ever passed to
`task.update_progress` by the `_transcribe_videos` loop — starting from
the `update_progress(0, 0, 0)` reset — satisfies
`processed = success + failed`, whatever the per-item outcomes. -/
theorem C7_progress_invariant (outcomes : List ItemOutcome) (pr : Progress)
    (h : pr ∈ (transcribe_run outcomes).log) :
    pr.processed = pr.success + pr.failed := by
  refine transcribe_foldl_invariant outcomes init_pipe ?_ ?_ pr h
  · intro q hq
    simp [init_pipe] at hq
    subst hq
    rfl
  · rfl

/-- Witness for `C7_progress_invariant`: one success then one in-item
exception yields the logged triple `(2, 1, 1)`. -/
theorem C7_progress_invariant_witness :
    ((⟨2, 1, 1⟩ : Progress) ∈
      (transcribe_run [ItemOutcome.okItem true, ItemOutcome.exnItem]).log) ∧
    (Progress.processed ⟨2, 1, 1⟩ =
      Progress.success ⟨2, 1, 1⟩ + Progress.failed ⟨2, 1, 1⟩) :=
  ⟨by decide,
    C7_progress_invariant [ItemOutcome.okItem true, ItemOutcome.exnItem]
      ⟨2, 1, 1⟩ (by decide)⟩

/-- C8: `add_retry_error` keeps the history an ordered list of at most 20
entries, evicting the oldest first (`error_history[-20:]`), and folding 25
fresh errors into an empty history stores exactly the last 20 of them. -/
theorem C8_retry_history_bounded :
    (∀ (hist : List RetryErr) (e : RetryErr), hist.length ≤ 20 →
      add_retry_error hist e = (hist ++ [e]).drop (hist.length + 1 - 20) ∧
      (add_retry_error hist e).length ≤ 20) ∧
    (List.foldl add_retry_error []
        ((List.range 25).map fun i => ⟨i, "err", 0⟩) =
      ((List.range 25).map fun i => (⟨i, "err", 0⟩ : RetryErr)).drop 5) := by
  constructor
  · intro hist e hle
    unfold add_retry_error
    by_cases h : 20 < (hist ++ [e]).length
    · rw [if_pos h]
      constructor
      · simp [List.length_append]
      · rw [List.length_drop]
        simp only [List.length_append, List.length_cons, List.length_nil] at h ⊢
        omega
    · rw [if_neg h]
      simp only [List.length_append, List.length_cons, List.length_nil] at h ⊢
      constructor
      · have h0 : hist.length + 1 - 20 = 0 := by omega
        rw [h0, List.drop_zero]
      · omega
  · decide

/-- Witness for `C8_retry_history_bounded` at an empty history. -/
theorem C8_retry_history_bounded_witness :
    (([] : List RetryErr).length ≤ 20) ∧
    (add_retry_error ([] : List RetryErr) (⟨0, "x", 0⟩ : RetryErr) =
        (([] : List RetryErr) ++ [(⟨0, "x", 0⟩ : RetryErr)]).drop
          (([] : List RetryErr).length + 1 - 20) ∧
      (add_retry_error ([] : List RetryErr) (⟨0, "x", 0⟩ : RetryErr)).length ≤ 20) :=
  ⟨by decide,
    C8_retry_history_bounded.1 ([] : List RetryErr)
      (⟨0, "x", 0⟩ : RetryErr) (by decide)⟩

/-- C9: when the analyzer raises (`analyzer = none`) but the result file
is written, the job still ends `Completed` (never `Failed`), the failure
is recorded in the `analysis_status` marker — a field distinct from
`error_message`, which is left untouched — and the result file is set. -/
theorem C9_analyzer_failure_nonfatal (t : AnalysisTask) (filename : String)
    (now : ℚ) :
    (execute_save_phase t none true filename now).status = TaskStatus.completed ∧
    (execute_save_phase t none true filename now).status ≠ TaskStatus.failed ∧
    (execute_save_phase t none true filename now).analysis_status = "failed" ∧
    (execute_save_phase t none true filename now).error_message = t.error_message ∧
    (execute_save_phase t none true filename now).result_file = some filename := by
  cases h : t.started_at <;>
    simp [execute_save_phase, save_results, perform_ai_analysis,
      set_analysis_report, set_result_file, update_status, h]

/-- C10: `update_progress` always stores the three counters; the
percentage is recomputed only when `total_videos > 0` (the division is
guarded, so a zero total leaves `progress` unchanged), and the ETA is
recomputed only when `started_at` is set and the processed count is
positive — otherwise `estimated_remaining` is left unchanged. -/
theorem C10_update_progress_guards (t : AnalysisTask) (p s f : ℕ) (now : ℚ) :
    ((update_progress t p s f now).videos_processed = p ∧
      (update_progress t p s f now).videos_success = s ∧
      (update_progress t p s f now).videos_failed = f) ∧
    (t.total_videos = 0 → (update_progress t p s f now).progress = t.progress) ∧
    (p = 0 → (update_progress t p s f now).estimated_remaining = t.estimated_remaining) ∧
    (t.started_at = none →
      (update_progress t p s f now).estimated_remaining = t.estimated_remaining) := by
  cases h : t.started_at <;> by_cases hp : 0 < p <;> by_cases ht : 0 < t.total_videos <;>
    simp [update_progress, h, hp, ht] <;> omega

/-- Witness for `C10_update_progress_guards` on the default task (zero
total, no start timestamp) with `p = 0`. -/
theorem C10_update_progress_guards_witness :
    (update_progress {} 0 0 0 0).progress = AnalysisTask.progress {} ∧
    (update_progress {} 0 0 0 0).estimated_remaining =
      AnalysisTask.estimated_remaining {} :=
  ⟨(C10_update_progress_guards {} 0 0 0 0).2.1 rfl,
    (C10_update_progress_guards {} 0 0 0 0).2.2.1 rfl⟩

end DouyinAnalyzer
